import Mathlib

/-
Shallow embedding of the GitHub Projects MCP server (src/index.ts).

The server exposes eleven tools over a stdio MCP transport.  Each tool call
is dispatched by name, its arguments are validated with a zod schema, and
the handler issues GitHub GraphQL (or one REST) network calls and renders a
single text block.  We embed the pure request/response mapping: argument
records with optional fields stand for the incoming JSON objects, zod
parsing is modelled issue-by-issue, remote responses are supplied by a
`World` oracle, and every handler returns the list of network calls it
issued together with the response it rendered.
-/

namespace GHP

/-- Single quote character, used when transcribing the template literals of
the source that quote a value, such as the owner-not-found message. -/
def sq : String := String.singleton (Char.ofNat 39)

/-- Rendering of a possibly-undefined string inside a JS template literal:
`undefined` interpolates as the text "undefined". -/
def jsUndef : Option String → String
  | none => "undefined"
  | some s => s

/-- Model of the JS expression `x || d` on an optional string `x`: both
`undefined` and the empty string are falsy and fall back to `d`. -/
def jsOrDefault (x : Option String) (d : String) : String :=
  match x with
  | none => d
  | some s => if s = "" then d else s

/-- Model of `s || d` on a present string, where only `""` is falsy. -/
def jsOrElse (s d : String) : String :=
  if s = "" then d else s

/-- Model of `String.prototype.toLowerCase`: per-character lowering,
written on the character list so that concrete instances evaluate inside
proofs. -/
def strLower (s : String) : String := ⟨s.data.map Char.toLower⟩

/-- Whether the first character list is a prefix of the second. -/
def charsPrefix : List Char → List Char → Bool
  | [], _ => true
  | _ :: _, [] => false
  | a :: as, b :: bs => a == b && charsPrefix as bs

/-- Whether the needle occurs as a contiguous run of the haystack. -/
def charsInfix (needle : List Char) : List Char → Bool
  | [] => charsPrefix needle []
  | c :: rest => charsPrefix needle (c :: rest) || charsInfix needle rest

/-- Model of `String.prototype.includes`: `needle` occurs somewhere inside
`hay`. -/
def strIncludes (hay needle : String) : Bool :=
  charsInfix needle.data hay.data

/-- One zod validation issue: the offending key and the zod message
(`"Required"` for a missing required key, the enum text otherwise). -/
structure ZodIssue where
  path : String
  message : String
  deriving Repr, DecidableEq

/-- Zod text for an out-of-range enum value. -/
def enumIssueMsg (allowed : List String) (received : String) : String :=
  "Invalid enum value. Expected " ++
    String.intercalate " | " (allowed.map (fun s => sq ++ s ++ sq)) ++
    ", received " ++ sq ++ received ++ sq

/-- Issues contributed by a required string key (`z.string()`). -/
def reqIssue (path : String) : Option String → List ZodIssue
  | none => [⟨path, "Required"⟩]
  | some _ => []

/-- Issues contributed by an optional enum key (`z.enum(...).optional()` or
with a default): absence is fine, a value outside the enum is an issue. -/
def enumIssue (path : String) (allowed : List String) : Option String → List ZodIssue
  | none => []
  | some v => if allowed.contains v then [] else [⟨path, enumIssueMsg allowed v⟩]

/-- Issues contributed by a required enum key (`z.enum(...)`). -/
def reqEnumIssue (path : String) (allowed : List String) : Option String → List ZodIssue
  | none => [⟨path, "Required"⟩]
  | some v => if allowed.contains v then [] else [⟨path, enumIssueMsg allowed v⟩]

/-- The `visibility` enum of the project schemas. -/
def visibilityEnum : List String := ["PUBLIC", "PRIVATE"]

/-- The field data-type enum shared by `UpdateProjectItemSchema` and
`CreateProjectFieldSchema`. -/
def fieldTypeEnum : List String := ["TEXT", "NUMBER", "DATE", "SINGLE_SELECT", "ITERATION"]

/-! Raw argument objects, one per tool.  An `Option` field records whether
the key was present in the incoming JSON object. -/

/-- Arguments of list-projects.  This tool has no zod schema: the handler
destructures the raw object directly. -/
structure ListProjectsRaw where
  owner : Option String
  type : Option String
  deriving Repr, DecidableEq

structure GetProjectRaw where
  projectId : Option String
  deriving Repr, DecidableEq

structure CreateProjectRaw where
  title : Option String
  description : Option String
  owner : Option String
  visibility : Option String
  deriving Repr, DecidableEq

structure UpdateProjectRaw where
  projectId : Option String
  title : Option String
  description : Option String
  visibility : Option String
  deriving Repr, DecidableEq

structure CreateIssueRaw where
  owner : Option String
  repo : Option String
  title : Option String
  body : Option String
  projectId : Option String
  deriving Repr, DecidableEq

structure AddItemRaw where
  projectId : Option String
  contentId : Option String
  deriving Repr, DecidableEq

structure UpdateProjectItemRaw where
  projectId : Option String
  itemId : Option String
  fieldId : Option String
  value : Option String
  fieldType : Option String
  deriving Repr, DecidableEq

structure CreateProjectFieldRaw where
  projectId : Option String
  name : Option String
  dataType : Option String
  options : Option (List String)
  deriving Repr, DecidableEq

structure UpdateItemStatusRaw where
  projectId : Option String
  itemId : Option String
  status : Option String
  deriving Repr, DecidableEq

structure GetProjectFieldsRaw where
  projectId : Option String
  deriving Repr, DecidableEq

structure GetProjectItemsRaw where
  projectId : Option String
  limit : Option Nat
  deriving Repr, DecidableEq

/-! Parsed argument records, the output of a successful zod parse. -/

structure GetProjectArgs where
  projectId : String
  deriving Repr, DecidableEq

structure CreateProjectArgs where
  title : String
  description : Option String
  owner : String
  visibility : String
  deriving Repr, DecidableEq

structure UpdateProjectArgs where
  projectId : String
  title : Option String
  description : Option String
  visibility : Option String
  deriving Repr, DecidableEq

structure CreateIssueArgs where
  owner : String
  repo : String
  title : String
  body : Option String
  projectId : Option String
  deriving Repr, DecidableEq

structure AddItemArgs where
  projectId : String
  contentId : String
  deriving Repr, DecidableEq

structure UpdateProjectItemArgs where
  projectId : String
  itemId : String
  fieldId : String
  value : String
  fieldType : Option String
  deriving Repr, DecidableEq

structure CreateProjectFieldArgs where
  projectId : String
  name : String
  dataType : String
  options : Option (List String)
  deriving Repr, DecidableEq

structure UpdateItemStatusArgs where
  projectId : String
  itemId : String
  status : String
  deriving Repr, DecidableEq

structure GetProjectFieldsArgs where
  projectId : String
  deriving Repr, DecidableEq

structure GetProjectItemsArgs where
  projectId : String
  limit : Nat
  deriving Repr, DecidableEq

/-! Zod validation.  Zod walks the object shape in key order and collects
one issue per violated key; parsing succeeds exactly when no issue arose. -/

/-- Issues of `GetProjectSchema`. -/
def getProjectIssues (a : GetProjectRaw) : List ZodIssue :=
  reqIssue "projectId" a.projectId

/-- Issues of `CreateProjectSchema` (shape order: title, description,
owner, visibility; description is an optional string, visibility an enum
with default PRIVATE). -/
def createProjectIssues (a : CreateProjectRaw) : List ZodIssue :=
  reqIssue "title" a.title ++ reqIssue "owner" a.owner ++
    enumIssue "visibility" visibilityEnum a.visibility

/-- Issues of `UpdateProjectSchema`. -/
def updateProjectIssues (a : UpdateProjectRaw) : List ZodIssue :=
  reqIssue "projectId" a.projectId ++ enumIssue "visibility" visibilityEnum a.visibility

/-- Issues of `CreateIssueSchema`. -/
def createIssueIssues (a : CreateIssueRaw) : List ZodIssue :=
  reqIssue "owner" a.owner ++ reqIssue "repo" a.repo ++ reqIssue "title" a.title

/-- Issues of `AddItemToProjectSchema`. -/
def addItemIssues (a : AddItemRaw) : List ZodIssue :=
  reqIssue "projectId" a.projectId ++ reqIssue "contentId" a.contentId

/-- Issues of `UpdateProjectItemSchema`. -/
def updateProjectItemIssues (a : UpdateProjectItemRaw) : List ZodIssue :=
  reqIssue "projectId" a.projectId ++ reqIssue "itemId" a.itemId ++
    reqIssue "fieldId" a.fieldId ++ reqIssue "value" a.value ++
    enumIssue "fieldType" fieldTypeEnum a.fieldType

/-- Issues of `CreateProjectFieldSchema` (options is an optional array and
never yields an issue for a well-typed array). -/
def createProjectFieldIssues (a : CreateProjectFieldRaw) : List ZodIssue :=
  reqIssue "projectId" a.projectId ++ reqIssue "name" a.name ++
    reqEnumIssue "dataType" fieldTypeEnum a.dataType

/-- Issues of `UpdateItemStatusSchema`. -/
def updateItemStatusIssues (a : UpdateItemStatusRaw) : List ZodIssue :=
  reqIssue "projectId" a.projectId ++ reqIssue "itemId" a.itemId ++
    reqIssue "status" a.status

/-- Issues of `GetProjectFieldsSchema`. -/
def getProjectFieldsIssues (a : GetProjectFieldsRaw) : List ZodIssue :=
  reqIssue "projectId" a.projectId

/-- Issues of `GetProjectItemsSchema` (limit is an optional number with
default 20 and no range constraint in the zod schema). -/
def getProjectItemsIssues (a : GetProjectItemsRaw) : List ZodIssue :=
  reqIssue "projectId" a.projectId

def parseGetProject (a : GetProjectRaw) : Except (List ZodIssue) GetProjectArgs :=
  match getProjectIssues a with
  | [] => .ok ⟨a.projectId.getD ""⟩
  | is => .error is

def parseCreateProject (a : CreateProjectRaw) : Except (List ZodIssue) CreateProjectArgs :=
  match createProjectIssues a with
  | [] => .ok ⟨a.title.getD "", a.description, a.owner.getD "", a.visibility.getD "PRIVATE"⟩
  | is => .error is

def parseUpdateProject (a : UpdateProjectRaw) : Except (List ZodIssue) UpdateProjectArgs :=
  match updateProjectIssues a with
  | [] => .ok ⟨a.projectId.getD "", a.title, a.description, a.visibility⟩
  | is => .error is

def parseCreateIssue (a : CreateIssueRaw) : Except (List ZodIssue) CreateIssueArgs :=
  match createIssueIssues a with
  | [] => .ok ⟨a.owner.getD "", a.repo.getD "", a.title.getD "", a.body, a.projectId⟩
  | is => .error is

def parseAddItem (a : AddItemRaw) : Except (List ZodIssue) AddItemArgs :=
  match addItemIssues a with
  | [] => .ok ⟨a.projectId.getD "", a.contentId.getD ""⟩
  | is => .error is

def parseUpdateProjectItem (a : UpdateProjectItemRaw) :
    Except (List ZodIssue) UpdateProjectItemArgs :=
  match updateProjectItemIssues a with
  | [] => .ok ⟨a.projectId.getD "", a.itemId.getD "", a.fieldId.getD "", a.value.getD "", a.fieldType⟩
  | is => .error is

def parseCreateProjectField (a : CreateProjectFieldRaw) :
    Except (List ZodIssue) CreateProjectFieldArgs :=
  match createProjectFieldIssues a with
  | [] => .ok ⟨a.projectId.getD "", a.name.getD "", a.dataType.getD "", a.options⟩
  | is => .error is

def parseUpdateItemStatus (a : UpdateItemStatusRaw) :
    Except (List ZodIssue) UpdateItemStatusArgs :=
  match updateItemStatusIssues a with
  | [] => .ok ⟨a.projectId.getD "", a.itemId.getD "", a.status.getD ""⟩
  | is => .error is

def parseGetProjectFields (a : GetProjectFieldsRaw) :
    Except (List ZodIssue) GetProjectFieldsArgs :=
  match getProjectFieldsIssues a with
  | [] => .ok ⟨a.projectId.getD ""⟩
  | is => .error is

def parseGetProjectItems (a : GetProjectItemsRaw) :
    Except (List ZodIssue) GetProjectItemsArgs :=
  match getProjectItemsIssues a with
  | [] => .ok ⟨a.projectId.getD "", a.limit.getD 20⟩
  | is => .error is

/-! Remote data model: pass-through mirrors of the GitHub objects that the
GraphQL queries destructure. -/

/-- Option of a single-select field (`options { id name description color }`
in the detailed fields query; the basic details query fetches id and name). -/
structure FieldOption where
  id : String
  name : String
  color : Option String := none
  description : Option String := none
  deriving Repr, DecidableEq

/-- One iteration window of an iteration field (`configuration.iterations`). -/
structure IterationInfo where
  id : String
  title : String
  duration : Nat
  startDate : Option String := none
  deriving Repr, DecidableEq

/-- A project field as destructured from the queries.  `dataType` is kept as
a raw string, exactly as in the TS interface: the remote may report built-in
types outside the tool enum.  `options` is present only on single-select
fields and `iterations` only on iteration fields, mirroring the GraphQL
fragments. -/
structure Field where
  id : String
  name : String
  dataType : String
  options : Option (List FieldOption) := none
  iterations : Option (List IterationInfo) := none
  createdAt : String := ""
  updatedAt : String := ""
  deriving Repr, DecidableEq

/-- The content union of a project item: issue, pull request or draft. -/
inductive ItemContent where
  | issue (id : String) (number : Nat) (title : String) (state : String)
      (url : String) (assignees : List String)
  | pull (id : String) (number : Nat) (title : String) (state : String)
      (url : String) (assignees : List String)
  | draft (id : String) (title : String) (body : Option String)
  deriving Repr, DecidableEq

/-- Reference to a field inside a field-value row. -/
structure FieldRef where
  id : String
  name : String
  deriving Repr, DecidableEq

/-- One row of `fieldValues.nodes`: the GraphQL union is destructured by
probing each possible key, so we record every key as optional.  `number`
holds the decimal rendering of the JS number, which is all the formatter
ever uses of it (`number.toString()`). -/
structure FieldValueNode where
  text : Option String := none
  number : Option String := none
  date : Option String := none
  name : Option String := none
  title : Option String := none
  field : Option FieldRef := none
  deriving Repr, DecidableEq

/-- A project item. -/
structure Item where
  id : String
  type : String
  content : Option ItemContent := none
  fieldValues : List FieldValueNode := []
  deriving Repr, DecidableEq

/-- A remote project with its full server-side field and item lists; each
query truncates them with its own `first:` argument. -/
structure RemoteProject where
  id : String
  number : Nat := 0
  title : String
  shortDescription : Option String := none
  isPublic : Bool := true
  closed : Bool := false
  createdAt : String := ""
  updatedAt : String := ""
  url : String := ""
  fields : List Field := []
  items : List Item := []
  deriving Repr, DecidableEq

/-- The view of a project returned by `GET_PROJECT_DETAILS`: the query asks
for `fields(first: 20)`, `items(first: 50)` and `fieldValues(first: 20)`. -/
def detailsView (p : RemoteProject) : RemoteProject :=
  { p with
    fields := p.fields.take 20
    items := (p.items.take 50).map (fun it => { it with fieldValues := it.fieldValues.take 20 }) }

/-- The view returned by `GET_PROJECT_FIELDS_DETAILED` (`fields(first: 50)`). -/
def fieldsDetailedView (p : RemoteProject) : RemoteProject :=
  { p with fields := p.fields.take 50 }

/-- The view returned by the inline items query of get-project-items
(`items(first: $first)`, `fieldValues(first: 20)`). -/
def itemsView (p : RemoteProject) (first : Nat) : RemoteProject :=
  { p with
    items := (p.items.take first).map (fun it => { it with fieldValues := it.fieldValues.take 20 }) }

/-- Result of one network round trip: either the destructured data or a
thrown error carrying its message. -/
inductive GqlResult (α : Type) where
  | ok (val : α)
  | err (msg : String)
  deriving Repr, DecidableEq

/-- Issue data returned by the REST create-issue call. -/
structure IssueData where
  title : String
  number : Nat
  html_url : String
  node_id : String
  deriving Repr, DecidableEq

/-- The remote oracle: what each kind of network call would return.  The
remote is deterministic within one tool call, so repeating a query (as
update-project-item may repeat `GET_PROJECT_DETAILS`) returns the same
result. -/
structure World where
  userId : GqlResult (Option String)
  orgId : GqlResult (Option String)
  userProjects : GqlResult (List RemoteProject)
  orgProjects : GqlResult (List RemoteProject)
  node : GqlResult (Option RemoteProject)
  createProjectRes : GqlResult RemoteProject
  updateProjectRes : GqlResult RemoteProject
  addItemRes : GqlResult String
  updateItemRes : GqlResult String
  createFieldRes : GqlResult Field
  restIssue : GqlResult IssueData

/-- JSON value as far as the wire format of mutation variables is concerned:
we only need to distinguish a string payload from an explicit null. -/
inductive Json where
  | null
  | str (s : String)
  deriving Repr, DecidableEq

/-- Variables object of the `UPDATE_PROJECT` mutation, as built by the
handler: the optional keys hold `undefined` when the caller omitted them. -/
structure UpdateProjectVars where
  projectId : String
  title : Option String
  description : Option String
  visibility : Option String
  deriving Repr, DecidableEq

/-- Wire serialization of the update-project variables: JSON.stringify
drops keys holding `undefined` and never turns them into null. -/
def serializeUpdateProjectVars (v : UpdateProjectVars) : List (String × Json) :=
  [("projectId", Json.str v.projectId)] ++
    (match v.title with | none => [] | some t => [("title", Json.str t)]) ++
    (match v.description with | none => [] | some d => [("description", Json.str d)]) ++
    (match v.visibility with | none => [] | some vi => [("visibility", Json.str vi)])

/-- Payload of the `UPDATE_PROJECT_ITEM_FIELD` mutation value, one variant
per formatting branch.  The NUMBER branch applies `parseFloat` to the raw
string; the raw string is recorded since nothing downstream in this program
inspects the parsed number. -/
inductive FieldValue where
  | text (s : String)
  | number (raw : String)
  | date (s : String)
  | singleSelectOptionId (id : String)
  | iterationId (id : String)
  deriving Repr, DecidableEq

/-- One network call, tagged by the query or mutation issued and carrying
the variables that the handler passed. -/
inductive NetCall where
  | getUserProjects (login : Option String)
  | getOrgProjects (login : Option String)
  | getProjectDetails (projectId : String)
  | getUserId (login : String)
  | getOrgId (login : String)
  | getProjectFieldsDetailed (projectId : String)
  | getProjectItemsQ (projectId : String) (first : Nat)
  | createProjectMut (ownerId : String) (title : String) (description : Option String)
      (visibility : String)
  | updateProjectMut (vars : UpdateProjectVars)
  | addItemMut (projectId : String) (contentId : String)
  | updateItemFieldMut (projectId : String) (itemId : String) (fieldId : String)
      (value : FieldValue)
  | createFieldMut (projectId : String) (name : String) (dataType : String)
  | restCreateIssue (owner : String) (repo : String) (title : String) (body : Option String)
  deriving Repr, DecidableEq

/-- Whether a network call is the item-field-update mutation. -/
def NetCall.isUpdateItemMut : NetCall → Bool
  | .updateItemFieldMut _ _ _ _ => true
  | _ => false

/-- Whether a network call is the create-project mutation. -/
def NetCall.isCreateProjectMut : NetCall → Bool
  | .createProjectMut _ _ _ _ => true
  | _ => false

/-- A tool response: the single text content block of a handler, or one of
the two protocol-level MCP faults raised by the dispatcher. -/
inductive Response where
  | text (s : String)
  | invalidParams (msg : String)
  | methodNotFound (msg : String)
  deriving Repr, DecidableEq

/-- Whether a response is the protocol-level invalid-parameters fault. -/
def Response.isInvalidParams : Response → Bool
  | .invalidParams _ => true
  | _ => false

/-! Handlers.  Each returns the list of network calls it issued, in order,
together with the rendered response. -/

/-- Summary line of one project in the list-projects output. -/
def projectSummaryText (p : RemoteProject) : String :=
  "• " ++ p.title ++ " (#" ++ toString p.number ++ ")\n" ++
    "  ID: " ++ p.id ++ "\n" ++
    "  Description: " ++ jsOrDefault p.shortDescription "No description" ++ "\n" ++
    "  Visibility: " ++ (if p.isPublic then "Public" else "Private") ++ "\n" ++
    "  Status: " ++ (if p.closed then "Closed" else "Open") ++ "\n" ++
    "  URL: " ++ p.url ++ "\n"

/-- The list-projects handler.  It has no zod schema: it destructures the
raw arguments (`owner` may be undefined), picks the user or organization
query by the `type` value (defaulting to user), and always issues exactly
one query. -/
def listProjectsRun (w : World) (a : ListProjectsRaw) : List NetCall × Response :=
  let ty := a.type.getD "user"
  let call := if ty == "organization" then NetCall.getOrgProjects a.owner
              else NetCall.getUserProjects a.owner
  let res := if ty == "organization" then w.orgProjects else w.userProjects
  match res with
  | .ok projects =>
      ([call], .text ("Projects for " ++ jsUndef a.owner ++ ":\n\n" ++
        String.intercalate "\n" (projects.map projectSummaryText)))
  | .err m => ([call], .text ("Error listing projects: " ++ m))

/-- Rendering of one item inside the get-project details output. -/
def detailsItemText (it : Item) : String :=
  match it.content with
  | some (.issue _ number title state url _) =>
      "• " ++ title ++ " (#" ++ toString number ++ ") - " ++ state ++ "\n  URL: " ++ url ++ "\n"
  | some (.pull _ number title state url _) =>
      "• " ++ title ++ " (#" ++ toString number ++ ") - " ++ state ++ "\n  URL: " ++ url ++ "\n"
  | some (.draft _ title _) => "• " ++ title ++ " (Draft)\n"
  | none => "• Item ID: " ++ it.id ++ "\n"

/-- The get-project handler. -/
def getProjectRun (w : World) (p : GetProjectArgs) : List NetCall × Response :=
  let calls := [NetCall.getProjectDetails p.projectId]
  match w.node with
  | .err m => (calls, .text ("Error getting project: " ++ m))
  | .ok none => (calls, .text ("Error getting project: Project not found"))
  | .ok (some pr0) =>
      let pr := detailsView pr0
      (calls, .text ("Project Details:\n\n" ++
        "Title: " ++ pr.title ++ "\n" ++
        "ID: " ++ pr.id ++ "\n" ++
        "Number: #" ++ toString pr.number ++ "\n" ++
        "Description: " ++ jsOrDefault pr.shortDescription "No description" ++ "\n" ++
        "Visibility: " ++ (if pr.isPublic then "Public" else "Private") ++ "\n" ++
        "Status: " ++ (if pr.closed then "Closed" else "Open") ++ "\n" ++
        "URL: " ++ pr.url ++ "\n\n" ++
        "Fields (" ++ toString pr.fields.length ++ "):\n" ++
        String.join (pr.fields.map (fun f =>
          "• " ++ f.name ++ " (" ++ f.dataType ++ ") - ID: " ++ f.id ++ "\n")) ++ "\n" ++
        "Items (" ++ toString pr.items.length ++ "):\n" ++
        String.join (pr.items.map detailsItemText)))

/-- Success text of create-project. -/
def createProjectSuccessText (pr : RemoteProject) : String :=
  "Project created successfully!\n\n" ++
    "Title: " ++ pr.title ++ "\n" ++
    "ID: " ++ pr.id ++ "\n" ++
    "Number: #" ++ toString pr.number ++ "\n" ++
    "Description: " ++ jsOrDefault pr.shortDescription "No description" ++ "\n" ++
    "URL: " ++ pr.url

/-- Owner-id resolution of create-project: try the user-id query; only when
it throws, fall back to the organization-id query.  Returns the calls made
and either the (possibly absent) owner id or the propagated error of the
fallback query. -/
def resolveOwnerId (w : World) (owner : String) :
    List NetCall × Except String (Option String) :=
  match w.userId with
  | .ok uid => ([NetCall.getUserId owner], .ok uid)
  | .err _ =>
      match w.orgId with
      | .ok oid => ([NetCall.getUserId owner, NetCall.getOrgId owner], .ok oid)
      | .err m => ([NetCall.getUserId owner, NetCall.getOrgId owner], .error m)

/-- The create-project handler. -/
def createProjectRun (w : World) (p : CreateProjectArgs) : List NetCall × Response :=
  let lk := resolveOwnerId w p.owner
  match lk.2 with
  | .error m => (lk.1, .text ("Error creating project: " ++ m))
  | .ok none =>
      (lk.1, .text ("Error creating project: Owner " ++ sq ++ p.owner ++ sq ++ " not found"))
  | .ok (some ownerId) =>
      let calls := lk.1 ++ [NetCall.createProjectMut ownerId p.title p.description p.visibility]
      match w.createProjectRes with
      | .ok pr => (calls, .text (createProjectSuccessText pr))
      | .err m => (calls, .text ("Error creating project: " ++ m))

/-- The update-project handler: the variables object carries every key, the
optional ones holding `undefined` when omitted. -/
def updateProjectRun (w : World) (p : UpdateProjectArgs) : List NetCall × Response :=
  let vars : UpdateProjectVars := ⟨p.projectId, p.title, p.description, p.visibility⟩
  let calls := [NetCall.updateProjectMut vars]
  match w.updateProjectRes with
  | .ok pr =>
      (calls, .text ("Project updated successfully!\n\n" ++
        "Title: " ++ pr.title ++ "\n" ++
        "ID: " ++ pr.id ++ "\n" ++
        "Description: " ++ jsOrDefault pr.shortDescription "No description" ++ "\n" ++
        "Visibility: " ++ (if pr.isPublic then "Public" else "Private")))
  | .err m => (calls, .text ("Error updating project: " ++ m))

/-- Success text of the REST issue creation, built before any attach. -/
def issueSuccessText (d : IssueData) : String :=
  "Issue created successfully!\n\n" ++
    "Title: " ++ d.title ++ "\n" ++
    "Number: #" ++ toString d.number ++ "\n" ++
    "URL: " ++ d.html_url ++ "\n" ++
    "Node ID: " ++ d.node_id

/-- The create-issue handler: REST creation, then a best-effort attach when
a project id was supplied (`if (projectId && issue.data.node_id)`, so an
empty project id or node id skips the attach). -/
def createIssueRun (w : World) (p : CreateIssueArgs) : List NetCall × Response :=
  let c1 := [NetCall.restCreateIssue p.owner p.repo p.title p.body]
  match w.restIssue with
  | .err m => (c1, .text ("Error creating issue: " ++ m))
  | .ok d =>
      let base := issueSuccessText d
      match p.projectId with
      | some pid =>
          if pid != "" && d.node_id != "" then
            let c2 := c1 ++ [NetCall.addItemMut pid d.node_id]
            match w.addItemRes with
            | .ok _ => (c2, .text (base ++ "\n\nIssue added to project successfully!"))
            | .err m =>
                (c2, .text (base ++ "\n\nWarning: Could not add issue to project: " ++ m))
          else (c1, .text base)
      | none => (c1, .text base)

/-- The add-item-to-project handler. -/
def addItemRun (w : World) (p : AddItemArgs) : List NetCall × Response :=
  let calls := [NetCall.addItemMut p.projectId p.contentId]
  match w.addItemRes with
  | .ok itemId =>
      (calls, .text ("Item added to project successfully!\n\nItem ID: " ++ itemId))
  | .err m => (calls, .text ("Error adding item to project: " ++ m))

/-- Lookup of a field by id inside the details view of the fetched node,
as `project?.fields?.nodes?.find((f) => f.id === fieldId)`. -/
def findFieldById (nodeOpt : Option RemoteProject) (fieldId : String) : Option Field :=
  (nodeOpt.map detailsView).bind (fun pr => pr.fields.find? (fun f => f.id == fieldId))

/-- Text for `field?.options?.map((opt) => opt.name).join(', ')` inside the
option-not-found message: an absent field or option list interpolates as
"undefined". -/
def optionNamesText (field : Option Field) : String :=
  match field with
  | none => "undefined"
  | some f =>
      match f.options with
      | none => "undefined"
      | some os => String.intercalate ", " (os.map (fun o => o.name))

/-- Field-type auto-detection of update-project-item: performed only when
the caller omitted `fieldType`.  A throwing fetch defaults to TEXT; a
successful fetch takes `field?.dataType`, which is undefined when no field
with the given id is present.  Returns the calls made and the value of the
`actualFieldType` variable. -/
def detectFieldType (w : World) (p : UpdateProjectItemArgs) :
    List NetCall × Option String :=
  match p.fieldType with
  | some t => ([], some t)
  | none =>
      match w.node with
      | .ok nodeOpt =>
          ([NetCall.getProjectDetails p.projectId],
            (findFieldById nodeOpt p.fieldId).map (fun f => f.dataType))
      | .err _ => ([NetCall.getProjectDetails p.projectId], some "TEXT")

/-- The value-formatting switch of update-project-item.  The SINGLE_SELECT
branch re-fetches the project, finds the field by id and matches the option
name case-insensitively; its failures are wrapped in the
"Failed to find single select option" text.  Returns the calls made and
either the formatted value or the thrown error message. -/
def formatFieldValue (w : World) (p : UpdateProjectItemArgs)
    (actualFieldType : Option String) : List NetCall × Except String FieldValue :=
  match actualFieldType with
  | some "TEXT" => ([], .ok (.text p.value))
  | some "NUMBER" => ([], .ok (.number p.value))
  | some "DATE" => ([], .ok (.date p.value))
  | some "SINGLE_SELECT" =>
      (match w.node with
      | .err m =>
          ([NetCall.getProjectDetails p.projectId],
            .error ("Failed to find single select option: " ++ m))
      | .ok nodeOpt =>
          let field := findFieldById nodeOpt p.fieldId
          let opt := field.bind (fun f =>
            f.options.bind (fun os =>
              os.find? (fun o => strLower o.name == strLower p.value)))
          match opt with
          | some o =>
              ([NetCall.getProjectDetails p.projectId], .ok (.singleSelectOptionId o.id))
          | none =>
              ([NetCall.getProjectDetails p.projectId],
                .error ("Failed to find single select option: Option " ++ sq ++ p.value ++ sq ++
                  " not found for field. Available options: " ++ optionNamesText field)))
  | some "ITERATION" => ([], .ok (.iterationId p.value))
  | _ => ([], .ok (.text p.value))

/-- The update-project-item handler. -/
def updateProjectItemRun (w : World) (p : UpdateProjectItemArgs) :
    List NetCall × Response :=
  let det := detectFieldType w p
  let actualFieldType := det.2
  let fmt := formatFieldValue w p actualFieldType
  match fmt.2 with
  | .error m => (det.1 ++ fmt.1, .text ("Error updating project item: " ++ m))
  | .ok v =>
      let calls := det.1 ++ fmt.1 ++
        [NetCall.updateItemFieldMut p.projectId p.itemId p.fieldId v]
      match w.updateItemRes with
      | .ok itemId =>
          (calls, .text ("Project item field updated successfully!\n\n" ++
            "Item ID: " ++ itemId ++ "\n" ++
            "Field Type: " ++ jsUndef actualFieldType ++ "\n" ++
            "New Value: " ++ p.value))
      | .err m => (calls, .text ("Error updating project item: " ++ m))

/-- The variables object of the `CREATE_PROJECT_FIELD` mutation: the
handler destructures only projectId, name and dataType from the parsed
arguments, so these are the only keys built into the object. -/
def createFieldVars (p : CreateProjectFieldArgs) : List (String × Json) :=
  [("projectId", Json.str p.projectId), ("name", Json.str p.name),
    ("dataType", Json.str p.dataType)]

/-- The create-project-field handler. -/
def createProjectFieldRun (w : World) (p : CreateProjectFieldArgs) :
    List NetCall × Response :=
  let calls := [NetCall.createFieldMut p.projectId p.name p.dataType]
  match w.createFieldRes with
  | .ok f =>
      (calls, .text ("Project field created successfully!\n\n" ++
        "Name: " ++ f.name ++ "\n" ++
        "ID: " ++ f.id ++ "\n" ++
        "Type: " ++ f.dataType))
  | .err m => (calls, .text ("Error creating project field: " ++ m))

/-- The status-like-field test of update-item-status: the lowercased field
name contains "status", "state" or "column". -/
def statusLike (name : String) : Bool :=
  strIncludes (strLower name) "status" || strIncludes (strLower name) "state" ||
    strIncludes (strLower name) "column"

/-- Text for `statusField.options?.map((opt) => opt.name).join(', ')` in
the status-not-found message. -/
def statusOptionNamesText (f : Field) : String :=
  match f.options with
  | none => "undefined"
  | some os => String.intercalate ", " (os.map (fun o => o.name))

/-- The update-item-status handler. -/
def updateItemStatusRun (w : World) (p : UpdateItemStatusArgs) :
    List NetCall × Response :=
  let calls := [NetCall.getProjectDetails p.projectId]
  match w.node with
  | .err m => (calls, .text ("Error updating status: " ++ m))
  | .ok none => (calls, .text ("Error updating status: Project not found"))
  | .ok (some pr0) =>
      let pr := detailsView pr0
      match pr.fields.find? (fun f => statusLike f.name) with
      | none =>
          (calls, .text ("Error updating status: No status field found. Available fields: " ++
            jsOrElse (String.intercalate ", " (pr.fields.map (fun f => f.name))) "none"))
      | some statusField =>
          match statusField.options.bind (fun os =>
              os.find? (fun o => strLower o.name == strLower p.status)) with
          | none =>
              (calls, .text ("Error updating status: Status " ++ sq ++ p.status ++ sq ++
                " not found. Available statuses: " ++ statusOptionNamesText statusField))
          | some o =>
              let calls2 := calls ++ [NetCall.updateItemFieldMut p.projectId p.itemId
                statusField.id (.singleSelectOptionId o.id)]
              match w.updateItemRes with
              | .ok itemId =>
                  (calls2, .text ("Status updated successfully!\n\n" ++
                    "Item ID: " ++ itemId ++ "\n" ++
                    "Field: " ++ statusField.name ++ "\n" ++
                    "New Status: " ++ p.status))
              | .err m => (calls2, .text ("Error updating status: " ++ m))

/-- Rendering of `new Date(x).toLocaleDateString()`.  The locale-dependent
date text is modelled as the identity on the fetched string; no claim
depends on the concrete rendering. -/
def toLocaleDateString (s : String) : String := s

/-- Appends `f s` when the optional string is truthy (present and
nonempty), as the `if (option.color)`-style guards do. -/
def jsIfTruthy (x : Option String) (f : String → String) : String :=
  match x with
  | none => ""
  | some s => if s = "" then "" else f s

/-- Detail block of one field in the get-project-fields output. -/
def fieldDetailText (f : Field) : String :=
  let base := "• **" ++ f.name ++ "**\n" ++
    "  - ID: `" ++ f.id ++ "`\n" ++
    "  - Type: " ++ f.dataType ++ "\n" ++
    "  - Created: " ++ toLocaleDateString f.createdAt ++ "\n"
  let optionsBlock :=
    match f.options with
    | some os =>
        if f.dataType = "SINGLE_SELECT" then
          "  - Options (" ++ toString os.length ++ "):\n" ++
            String.join (os.enum.map (fun (i, o) =>
              "    " ++ toString (i + 1) ++ ". \"" ++ o.name ++ "\" (ID: `" ++ o.id ++ "`)" ++
                jsIfTruthy o.color (fun c => " 🎨" ++ c) ++
                jsIfTruthy o.description (fun d => " - " ++ d) ++ "\n"))
        else ""
    | none => ""
  let iterationsBlock :=
    match f.iterations with
    | some its =>
        if f.dataType = "ITERATION" then
          "  - Iterations (" ++ toString its.length ++ "):\n" ++
            String.join (its.enum.map (fun (i, itn) =>
              "    " ++ toString (i + 1) ++ ". \"" ++ itn.title ++ "\" (" ++
                toString itn.duration ++ " days)" ++
                jsIfTruthy itn.startDate (fun d => " - Starts: " ++ toLocaleDateString d) ++ "\n"))
        else ""
    | none => ""
  base ++ optionsBlock ++ iterationsBlock

/-- Trailing usage text of the get-project-fields output. -/
def fieldsUsageText (projectId : String) : String :=
  "\n\n**Usage Examples:**\n" ++
    "- Text field: `\x7b\"fieldId\": \"field_id\", \"value\": \"text\", \"fieldType\": \"TEXT\"\x7d`\n" ++
    "- Status field: `\x7b\"fieldId\": \"field_id\", \"value\": \"option_name\", \"fieldType\": \"SINGLE_SELECT\"\x7d`\n" ++
    "- Quick status update: `\x7b\"projectId\": \"" ++ projectId ++
      "\", \"itemId\": \"item_id\", \"status\": \"option_name\"\x7d`\n\n" ++
    "**Built-in Fields:**\n" ++
    "- Title: Always available for all items\n" ++
    "- Assignees: Built-in user assignment field\n" ++
    "- Status: Default status tracking field\n" ++
    "- Labels: Built-in labeling system"

/-- The get-project-fields handler. -/
def getProjectFieldsRun (w : World) (p : GetProjectFieldsArgs) :
    List NetCall × Response :=
  let calls := [NetCall.getProjectFieldsDetailed p.projectId]
  match w.node with
  | .err m => (calls, .text ("Error getting project fields: " ++ m))
  | .ok none => (calls, .text ("Error getting project fields: Project not found"))
  | .ok (some pr0) =>
      let pr := fieldsDetailedView pr0
      if pr.fields.length = 0 then
        (calls, .text "No custom fields found in this project.")
      else
        (calls, .text ("Project Fields for " ++ pr.title ++ ":\n\n" ++
          "Total Fields: " ++ toString pr.fields.length ++ "\n\n" ++
          String.intercalate "\n" (pr.fields.map fieldDetailText) ++
          fieldsUsageText p.projectId))

/-- Value shown for one field-value row of an item, probing the possible
keys in the fixed precedence order text, number, date, name, title; the
`!== undefined` checks admit empty strings. -/
def fieldValueDisplay (fv : FieldValueNode) : String :=
  match fv.text with
  | some t => t
  | none =>
      match fv.number with
      | some n => n
      | none =>
          match fv.date with
          | some d => toLocaleDateString d
          | none =>
              match fv.name with
              | some n => n
              | none =>
                  match fv.title with
                  | some t => t
                  | none => "N/A"

/-- One field row of an item, emitted only when `fieldValue.field?.name`
is truthy. -/
def itemFieldRow (fv : FieldValueNode) : String :=
  match fv.field with
  | none => ""
  | some fr =>
      if fr.name = "" then ""
      else "     - " ++ fr.name ++ ": " ++ fieldValueDisplay fv ++ "\n"

/-- Rendering of one item in the get-project-items digest. -/
def itemText (idx : Nat) (it : Item) : String :=
  let head := "**" ++ toString (idx + 1) ++ ". "
  let core :=
    match it.content with
    | some (.issue _ number title state url assignees) =>
        head ++ title ++ " (#" ++ toString number ++ ")**\n" ++
          "   - Type: Issue\n" ++
          "   - State: " ++ state ++ "\n" ++
          "   - URL: " ++ url ++ "\n" ++
          "   - Item ID: `" ++ it.id ++ "`\n" ++
          (if assignees.length > 0 then
            "   - Assignees: " ++
              String.intercalate ", " (assignees.map (fun a => "@" ++ a)) ++ "\n"
          else "")
    | some (.pull _ number title state url assignees) =>
        head ++ title ++ " (#" ++ toString number ++ ")**\n" ++
          "   - Type: PullRequest\n" ++
          "   - State: " ++ state ++ "\n" ++
          "   - URL: " ++ url ++ "\n" ++
          "   - Item ID: `" ++ it.id ++ "`\n" ++
          (if assignees.length > 0 then
            "   - Assignees: " ++
              String.intercalate ", " (assignees.map (fun a => "@" ++ a)) ++ "\n"
          else "")
    | some (.draft _ title body) =>
        head ++ title ++ " (Draft)**\n" ++
          "   - Type: Draft Issue\n" ++
          "   - Item ID: `" ++ it.id ++ "`\n" ++
          jsIfTruthy body (fun b =>
            "   - Body: " ++ (if b.length > 100 then b.take 100 ++ "..." else b) ++ "\n")
    | none =>
        head ++ "Unknown Item**\n" ++ "   - Item ID: `" ++ it.id ++ "`\n"
  core ++
    (if it.fieldValues.length > 0 then
      "   - Fields:\n" ++ String.join (it.fieldValues.map itemFieldRow)
    else "")

/-- The get-project-items handler: one inline query with `first` set to the
validated limit. -/
def getProjectItemsRun (w : World) (p : GetProjectItemsArgs) :
    List NetCall × Response :=
  let calls := [NetCall.getProjectItemsQ p.projectId p.limit]
  match w.node with
  | .err m => (calls, .text ("Error getting project items: " ++ m))
  | .ok none => (calls, .text ("Error getting project items: Project not found"))
  | .ok (some pr0) =>
      let pr := itemsView pr0 p.limit
      if pr.items.length = 0 then
        (calls, .text ("No items found in project \"" ++ pr.title ++ "\"."))
      else
        (calls, .text ("Project Items for \"" ++ pr.title ++ "\":\n\n" ++
          "Total Items: " ++ toString pr.items.length ++ "\n\n" ++
          String.intercalate "\n" (pr.items.enum.map (fun (i, it) => itemText i it)) ++
          "\n\n**Quick Actions:**\n" ++
          "- Update status: `update-item-status` with itemId and status\n" ++
          "- Update any field: `update-project-item` with itemId, fieldId, and value"))

/-! The dispatcher. -/

/-- An incoming tool call: the tool name resolved to its argument shape, or
an unknown name. -/
inductive ToolCall where
  | listProjects (a : ListProjectsRaw)
  | getProject (a : GetProjectRaw)
  | createProject (a : CreateProjectRaw)
  | updateProject (a : UpdateProjectRaw)
  | createIssue (a : CreateIssueRaw)
  | addItemToProject (a : AddItemRaw)
  | updateProjectItem (a : UpdateProjectItemRaw)
  | createProjectField (a : CreateProjectFieldRaw)
  | updateItemStatus (a : UpdateItemStatusRaw)
  | getProjectFields (a : GetProjectFieldsRaw)
  | getProjectItems (a : GetProjectItemsRaw)
  | unknown (name : String)
  deriving Repr, DecidableEq

/-- The zod issues that parsing the arguments of a call produces.
list-projects has no schema and unknown tools are rejected before any
parse, so both contribute none. -/
def validationIssues : ToolCall → List ZodIssue
  | .listProjects _ => []
  | .getProject a => getProjectIssues a
  | .createProject a => createProjectIssues a
  | .updateProject a => updateProjectIssues a
  | .createIssue a => createIssueIssues a
  | .addItemToProject a => addItemIssues a
  | .updateProjectItem a => updateProjectItemIssues a
  | .createProjectField a => createProjectFieldIssues a
  | .updateItemStatus a => updateItemStatusIssues a
  | .getProjectFields a => getProjectFieldsIssues a
  | .getProjectItems a => getProjectItemsIssues a
  | .unknown _ => []

/-- Message of the invalid-parameters fault: the dispatcher joins the zod
issue messages with ", ". -/
def invalidArgsMsg (issues : List ZodIssue) : String :=
  "Invalid arguments: " ++ String.intercalate ", " (issues.map (fun i => i.message))

/-- The call-tool dispatcher: route by name, parse the arguments with the
matching schema, convert a zod failure into the invalid-params fault, run
the handler otherwise.  Unknown names raise the method-not-found fault. -/
def dispatch (w : World) (c : ToolCall) : List NetCall × Response :=
  match c with
  | .listProjects a => listProjectsRun w a
  | .getProject a =>
      match parseGetProject a with
      | .error is => ([], .invalidParams (invalidArgsMsg is))
      | .ok p => getProjectRun w p
  | .createProject a =>
      match parseCreateProject a with
      | .error is => ([], .invalidParams (invalidArgsMsg is))
      | .ok p => createProjectRun w p
  | .updateProject a =>
      match parseUpdateProject a with
      | .error is => ([], .invalidParams (invalidArgsMsg is))
      | .ok p => updateProjectRun w p
  | .createIssue a =>
      match parseCreateIssue a with
      | .error is => ([], .invalidParams (invalidArgsMsg is))
      | .ok p => createIssueRun w p
  | .addItemToProject a =>
      match parseAddItem a with
      | .error is => ([], .invalidParams (invalidArgsMsg is))
      | .ok p => addItemRun w p
  | .updateProjectItem a =>
      match parseUpdateProjectItem a with
      | .error is => ([], .invalidParams (invalidArgsMsg is))
      | .ok p => updateProjectItemRun w p
  | .createProjectField a =>
      match parseCreateProjectField a with
      | .error is => ([], .invalidParams (invalidArgsMsg is))
      | .ok p => createProjectFieldRun w p
  | .updateItemStatus a =>
      match parseUpdateItemStatus a with
      | .error is => ([], .invalidParams (invalidArgsMsg is))
      | .ok p => updateItemStatusRun w p
  | .getProjectFields a =>
      match parseGetProjectFields a with
      | .error is => ([], .invalidParams (invalidArgsMsg is))
      | .ok p => getProjectFieldsRun w p
  | .getProjectItems a =>
      match parseGetProjectItems a with
      | .error is => ([], .invalidParams (invalidArgsMsg is))
      | .ok p => getProjectItemsRun w p
  | .unknown name => ([], .methodNotFound ("Unknown tool: " ++ name))

/-! Concrete worlds and inputs used to instantiate the theorems below. -/

/-- A benign base world in which every remote call succeeds. -/
def wBase : World where
  userId := .ok (some "U1")
  orgId := .ok (some "O1")
  userProjects := .ok []
  orgProjects := .ok []
  node := .ok none
  createProjectRes := .ok { id := "P1", title := "T" }
  updateProjectRes := .ok { id := "P1", title := "T" }
  addItemRes := .ok "IT1"
  updateItemRes := .ok "IT1"
  createFieldRes := .ok { id := "F1", name := "N", dataType := "TEXT" }
  restIssue := .ok { title := "I", number := 7, html_url := "u", node_id := "N7" }

/-- A single-select status field with two options. -/
def fSel : Field :=
  { id := "F", name := "Status", dataType := "SINGLE_SELECT",
    options := some [⟨"o1", "Todo", none, none⟩, ⟨"o2", "Done", none, none⟩] }

/-- Project holding just the single-select field. -/
def prSel : RemoteProject := { id := "P", title := "Proj", fields := [fSel] }

/-- World whose node lookup returns `prSel`. -/
def wSel : World := { wBase with node := .ok (some prSel) }

/-- Project whose only status-like field is a plain TEXT field without an
option list. -/
def prNoOpt : RemoteProject :=
  { id := "P", title := "Proj",
    fields := [{ id := "F0", name := "Tracked State", dataType := "TEXT" }] }

/-- World whose node lookup returns `prNoOpt`. -/
def wNoOpt : World := { wBase with node := .ok (some prNoOpt) }

/-- Project with twenty non-status fields followed by a 21st field named
Status: the status field lies beyond the `fields(first: 20)` window. -/
def prLateStatus : RemoteProject :=
  { id := "P", title := "Proj",
    fields := (List.range 20).map (fun i =>
        { id := "A" ++ toString i, name := "A" ++ toString i, dataType := "TEXT" }) ++
      [fSel] }

/-- World whose node lookup returns `prLateStatus`. -/
def wLateStatus : World := { wBase with node := .ok (some prLateStatus) }

/-- World in which both owner lookups throw. -/
def wBothThrow : World :=
  { wBase with userId := .err "user lookup failed", orgId := .err "org lookup failed" }

/-- World in which the user-id lookup completes without an id. -/
def wUserNull : World := { wBase with userId := .ok none }

/-- Project that does not contain any field with id F. -/
def prNoF : RemoteProject :=
  { id := "P", title := "Proj",
    fields := [{ id := "OTHER", name := "X", dataType := "TEXT" }] }

/-- World whose node lookup returns `prNoF`. -/
def wNoF : World := { wBase with node := .ok (some prNoF) }

/-- World in which the project-attach mutation throws. -/
def wAttachFails : World := { wBase with addItemRes := .err "attach failed" }

/-- Project with one item, used to show that limit 0 still reports zero
items. -/
def prOneItem : RemoteProject :=
  { id := "P", title := "Proj", items := [{ id := "i1", type := "ISSUE" }] }

/-- World whose node lookup returns `prOneItem`. -/
def wOneItem : World := { wBase with node := .ok (some prOneItem) }

/-- Project with two fields and no status-like name among them. -/
def prNoStatus : RemoteProject :=
  { id := "P", title := "Proj",
    fields := [{ id := "F1", name := "Alpha", dataType := "TEXT" },
      { id := "F2", name := "Beta", dataType := "TEXT" }] }

/-- World whose node lookup returns `prNoStatus`. -/
def wNoStatus : World := { wBase with node := .ok (some prNoStatus) }

/-! Theorems, one per claim of the specification. -/

/-- C2: for every update-project-item call on a SINGLE_SELECT field whose
id resolves in the fetched field list and whose option list is present, the
option id sent in the update mutation is the id of an option of that field
whose name equals the supplied value case-insensitively; and when no option
matches case-insensitively, the call fails with an error text listing every
available option name of that field and no update mutation is issued. -/
theorem C2_single_select_option_matching
    (w : World) (p : UpdateProjectItemArgs) (pr : RemoteProject) (f : Field)
    (os : List FieldOption)
    (hnode : w.node = .ok (some pr))
    (htype : p.fieldType = some "SINGLE_SELECT")
    (hfield : (detailsView pr).fields.find? (fun g => g.id == p.fieldId) = some f)
    (hopts : f.options = some os) :
    (∀ o, os.find? (fun o => strLower o.name == strLower p.value) = some o →
      o ∈ os ∧ strLower o.name = strLower p.value ∧
      (updateProjectItemRun w p).1 =
        [NetCall.getProjectDetails p.projectId,
          NetCall.updateItemFieldMut p.projectId p.itemId p.fieldId
            (FieldValue.singleSelectOptionId o.id)]) ∧
    (os.find? (fun o => strLower o.name == strLower p.value) = none →
      updateProjectItemRun w p =
        ([NetCall.getProjectDetails p.projectId],
          Response.text ("Error updating project item: " ++
            ("Failed to find single select option: Option " ++ sq ++ p.value ++ sq ++
              " not found for field. Available options: " ++
              String.intercalate ", " (os.map (fun o => o.name)))))) := by
  have hff : findFieldById (some pr) p.fieldId = some f := by
    simp [findFieldById, hfield]
  constructor
  · intro o hfind
    refine ⟨List.mem_of_find?_eq_some hfind, by simpa using List.find?_some hfind, ?_⟩
    cases hres : w.updateItemRes <;>
      simp [updateProjectItemRun, detectFieldType, formatFieldValue, htype, hnode,
        hff, hopts, hfind, hres]
  · intro hfind
    simp [updateProjectItemRun, detectFieldType, formatFieldValue, htype, hnode,
      hff, hopts, hfind, optionNamesText, String.append_assoc]

/-- Witness for C2 at a concrete world: the value dOnE matches the option
Done case-insensitively and the mutation carries its option id o2. -/
theorem C2_witness :
    (updateProjectItemRun wSel ⟨"P", "I", "F", "dOnE", some "SINGLE_SELECT"⟩).1 =
      [NetCall.getProjectDetails "P",
        NetCall.updateItemFieldMut "P" "I" "F" (FieldValue.singleSelectOptionId "o2")] :=
  ((C2_single_select_option_matching wSel ⟨"P", "I", "F", "dOnE", some "SINGLE_SELECT"⟩
      prSel fSel [⟨"o1", "Todo", none, none⟩, ⟨"o2", "Done", none, none⟩]
      rfl rfl (by decide) rfl).1 ⟨"o2", "Done", none, none⟩ (by decide)).2.2

/-- C10: when the first status-like field of the fetched field list has no
option list (it is not a single-select field), every update-item-status
call fails with the option-not-found error (available statuses rendering as
undefined) and no update mutation is issued, whatever status was asked. -/
theorem C10_status_field_without_options
    (w : World) (p : UpdateItemStatusArgs) (pr : RemoteProject) (f : Field)
    (hnode : w.node = .ok (some pr))
    (hfield : (detailsView pr).fields.find? (fun g => statusLike g.name) = some f)
    (hopts : f.options = none) :
    updateItemStatusRun w p =
      ([NetCall.getProjectDetails p.projectId],
        Response.text ("Error updating status: Status " ++ sq ++ p.status ++ sq ++
          " not found. Available statuses: " ++ "undefined")) := by
  simp [updateItemStatusRun, hnode, hfield, hopts, statusOptionNamesText,
    String.append_assoc]

/-- Witness for C10: the Tracked State text field is status-like but has no
options, so the call fails without issuing the mutation. -/
theorem C10_witness :
    updateItemStatusRun wNoOpt ⟨"P", "I", "Todo"⟩ =
      ([NetCall.getProjectDetails "P"],
        Response.text ("Error updating status: Status " ++ sq ++ "Todo" ++ sq ++
          " not found. Available statuses: " ++ "undefined")) :=
  C10_status_field_without_options wNoOpt ⟨"P", "I", "Todo"⟩ prNoOpt
    { id := "F0", name := "Tracked State", dataType := "TEXT" } rfl (by decide) rfl

/-- C8: a get-project-items call with limit 0 issues exactly one network
call and returns the zero-items message, which begins with
"No items found"; and an omitted limit parses to the default 20. -/
theorem C8_limit_zero_and_default
    (w : World) (pr : RemoteProject) (pid : String)
    (hnode : w.node = .ok (some pr)) :
    getProjectItemsRun w ⟨pid, 0⟩ =
      ([NetCall.getProjectItemsQ pid 0],
        Response.text ("No items found in project \"" ++ pr.title ++ "\".")) ∧
    (∃ rest, "No items found in project \"" ++ pr.title ++ "\"." =
      "No items found" ++ rest) ∧
    (∀ pid2, parseGetProjectItems ⟨some pid2, none⟩ = .ok ⟨pid2, 20⟩) := by
  refine ⟨?_, ⟨" in project \"" ++ pr.title ++ "\".", ?_⟩, fun pid2 => rfl⟩
  · simp [getProjectItemsRun, hnode, itemsView]
  · rw [← String.append_assoc, ← String.append_assoc]
    rfl

/-- Witness for C8: a project that does hold an item still reports zero
items under limit 0, over a single network call. -/
theorem C8_witness :
    getProjectItemsRun wOneItem ⟨"P", 0⟩ =
      ([NetCall.getProjectItemsQ "P" 0],
        Response.text ("No items found in project \"" ++ "Proj" ++ "\".")) :=
  (C8_limit_zero_and_default wOneItem prOneItem "P" rfl).1

/-- C5: when issue creation succeeds, a project id was supplied (and both
it and the node id are truthy so the attach is attempted) and the attach
mutation throws, create-issue still returns the success text holding the
issue details with the warning suffix appended, never an overall error
response. -/
theorem C5_attach_failure_is_warning
    (w : World) (p : CreateIssueArgs) (d : IssueData) (pid m : String)
    (hrest : w.restIssue = .ok d)
    (hpid : p.projectId = some pid) (hpidne : pid ≠ "")
    (hnid : d.node_id ≠ "")
    (hadd : w.addItemRes = .err m) :
    createIssueRun w p =
      ([NetCall.restCreateIssue p.owner p.repo p.title p.body,
        NetCall.addItemMut pid d.node_id],
        Response.text (issueSuccessText d ++
          "\n\nWarning: Could not add issue to project: " ++ m)) := by
  simp [createIssueRun, hrest, hpid, hpidne, hnid, hadd, String.append_assoc]

/-- Witness for C5 at a concrete world whose attach mutation throws. -/
theorem C5_witness :
    createIssueRun wAttachFails ⟨"me", "repo", "Bug", none, some "P"⟩ =
      ([NetCall.restCreateIssue "me" "repo" "Bug" none,
        NetCall.addItemMut "P" "N7"],
        Response.text (issueSuccessText
            { title := "I", number := 7, html_url := "u", node_id := "N7" } ++
          "\n\nWarning: Could not add issue to project: " ++ "attach failed")) :=
  C5_attach_failure_is_warning wAttachFails ⟨"me", "repo", "Bug", none, some "P"⟩
    { title := "I", number := 7, html_url := "u", node_id := "N7" }
    "P" "attach failed" rfl rfl (by decide) (by decide) rfl

/-- Helper: every value serialized from the update-project variables is a
string payload; no key is ever emitted as null. -/
theorem serializeUpdateProjectVars_no_null (v : UpdateProjectVars) :
    (serializeUpdateProjectVars v).all (fun kv => kv.2 != Json.null) = true := by
  rcases v with ⟨pid, t, d, vi⟩
  cases t <;> cases d <;> cases vi <;> rfl

/-- C7: update-project sends one mutation whose variables object holds the
caller-supplied values; on the wire, each optional key (title, description,
visibility) is present exactly when the caller supplied it, and no key is
ever serialized as null. -/
theorem C7_partial_update_variables (w : World) (p : UpdateProjectArgs) :
    (updateProjectRun w p).1 =
      [NetCall.updateProjectMut ⟨p.projectId, p.title, p.description, p.visibility⟩] ∧
    (("title" ∈ (serializeUpdateProjectVars
        ⟨p.projectId, p.title, p.description, p.visibility⟩).map Prod.fst) ↔
      p.title ≠ none) ∧
    (("description" ∈ (serializeUpdateProjectVars
        ⟨p.projectId, p.title, p.description, p.visibility⟩).map Prod.fst) ↔
      p.description ≠ none) ∧
    (("visibility" ∈ (serializeUpdateProjectVars
        ⟨p.projectId, p.title, p.description, p.visibility⟩).map Prod.fst) ↔
      p.visibility ≠ none) ∧
    (∀ kv ∈ serializeUpdateProjectVars
        ⟨p.projectId, p.title, p.description, p.visibility⟩, kv.2 ≠ Json.null) := by
  refine ⟨?_, ?_, ?_, ?_, ?_⟩
  · cases hres : w.updateProjectRes <;> simp [updateProjectRun, hres]
  · cases p.title <;> cases p.description <;> cases p.visibility <;>
      simp [serializeUpdateProjectVars]
  · cases p.title <;> cases p.description <;> cases p.visibility <;>
      simp [serializeUpdateProjectVars]
  · cases p.title <;> cases p.description <;> cases p.visibility <;>
      simp [serializeUpdateProjectVars]
  · intro kv hkv
    have h := List.all_eq_true.mp
      (serializeUpdateProjectVars_no_null ⟨p.projectId, p.title, p.description, p.visibility⟩)
      kv hkv
    simpa using h

/-- Witness for C7: with only the title supplied, the serialized variables
hold exactly projectId and title. -/
theorem C7_witness :
    (updateProjectRun wBase ⟨"P", some "NewTitle", none, none⟩).1 =
      [NetCall.updateProjectMut ⟨"P", some "NewTitle", none, none⟩] :=
  (C7_partial_update_variables wBase ⟨"P", some "NewTitle", none, none⟩).1

/-- C9: create-project-field accepts the options argument in its input
schema but never forwards it: the mutation variables sent are exactly
projectId, name and dataType, and the whole handler result is independent
of the options supplied. -/
theorem C9_options_not_forwarded
    (w : World) (pid nm dt : String) (opts : Option (List String))
    (hdt : dt ∈ fieldTypeEnum) :
    parseCreateProjectField ⟨some pid, some nm, some dt, opts⟩ = .ok ⟨pid, nm, dt, opts⟩ ∧
    (createProjectFieldRun w ⟨pid, nm, dt, opts⟩).1 =
      [NetCall.createFieldMut pid nm dt] ∧
    (createFieldVars ⟨pid, nm, dt, opts⟩).map Prod.fst =
      ["projectId", "name", "dataType"] ∧
    (∀ opts2, createProjectFieldRun w ⟨pid, nm, dt, opts2⟩ =
      createProjectFieldRun w ⟨pid, nm, dt, opts⟩) := by
  have hc : fieldTypeEnum.contains dt = true := List.elem_eq_true_of_mem hdt
  refine ⟨?_, ?_, rfl, fun opts2 => rfl⟩
  · simp [parseCreateProjectField, createProjectFieldIssues, reqIssue, reqEnumIssue, hdt]
  · cases hres : w.createFieldRes <;> simp [createProjectFieldRun, hres]

/-- Witness for C9: a SINGLE_SELECT field with options supplied still sends
only the three keys. -/
theorem C9_witness :
    parseCreateProjectField
        ⟨some "P", some "Priority", some "SINGLE_SELECT", some ["High", "Low"]⟩ =
      .ok ⟨"P", "Priority", "SINGLE_SELECT", some ["High", "Low"]⟩ :=
  (C9_options_not_forwarded wBase "P" "Priority" "SINGLE_SELECT"
    (some ["High", "Low"]) (by decide)).1

/-- Counterexample to C4 as stated: when both lookups throw, neither lookup
yields an owner id, yet the call fails with the propagated error of the
organization lookup, not with the owner-not-found message. -/
theorem C4_counterexample :
    dispatch wBothThrow (.createProject ⟨some "T", none, some "alice", none⟩) =
      ([NetCall.getUserId "alice", NetCall.getOrgId "alice"],
        Response.text ("Error creating project: " ++ "org lookup failed")) ∧
    ("Error creating project: " ++ "org lookup failed" ≠
      "Error creating project: Owner " ++ sq ++ "alice" ++ sq ++ " not found") := by
  exact ⟨rfl, by decide⟩

/-- C4 amended: the first network call of create-project is always the user
lookup, and
performs the organization lookup only when the user lookup throws; when the
performed lookups complete without yielding an owner id the call fails with
the owner-not-found message, while a throwing organization lookup fails the
call with that error instead; in every one of these failure cases no
create-project mutation is issued. -/
theorem C4_owner_resolution (w : World) (p : CreateProjectArgs) :
    ((createProjectRun w p).1.head? = some (NetCall.getUserId p.owner)) ∧
    ((NetCall.getOrgId p.owner ∈ (createProjectRun w p).1) ↔ ∃ m, w.userId = .err m) ∧
    (w.userId = .ok none →
      createProjectRun w p = ([NetCall.getUserId p.owner],
        Response.text ("Error creating project: Owner " ++ sq ++ p.owner ++ sq ++
          " not found"))) ∧
    (∀ m, w.userId = .err m → w.orgId = .ok none →
      createProjectRun w p = ([NetCall.getUserId p.owner, NetCall.getOrgId p.owner],
        Response.text ("Error creating project: Owner " ++ sq ++ p.owner ++ sq ++
          " not found"))) ∧
    (∀ m m2, w.userId = .err m → w.orgId = .err m2 →
      createProjectRun w p = ([NetCall.getUserId p.owner, NetCall.getOrgId p.owner],
        Response.text ("Error creating project: " ++ m2))) := by
  refine ⟨?_, ?_, ?_, ?_, ?_⟩
  · rcases hu : w.userId with uid | m
    · rcases uid with _ | uid
      · simp [createProjectRun, resolveOwnerId, hu]
      · rcases hc : w.createProjectRes with pr | m <;>
          simp [createProjectRun, resolveOwnerId, hu, hc]
    · rcases ho : w.orgId with oid | m2
      · rcases oid with _ | oid
        · simp [createProjectRun, resolveOwnerId, hu, ho]
        · rcases hc : w.createProjectRes with pr | m2 <;>
            simp [createProjectRun, resolveOwnerId, hu, ho, hc]
      · simp [createProjectRun, resolveOwnerId, hu, ho]
  · rcases hu : w.userId with uid | m
    · rcases uid with _ | uid
      · simp [createProjectRun, resolveOwnerId, hu]
      · rcases hc : w.createProjectRes with pr | m <;>
          simp [createProjectRun, resolveOwnerId, hu, hc]
    · rcases ho : w.orgId with oid | m2
      · rcases oid with _ | oid
        · simp [createProjectRun, resolveOwnerId, hu, ho]
        · rcases hc : w.createProjectRes with pr | m2 <;>
            simp [createProjectRun, resolveOwnerId, hu, ho, hc]
      · simp [createProjectRun, resolveOwnerId, hu, ho]
  · intro hu
    simp [createProjectRun, resolveOwnerId, hu]
  · intro m hu ho
    simp [createProjectRun, resolveOwnerId, hu, ho]
  · intro m m2 hu ho
    simp [createProjectRun, resolveOwnerId, hu, ho]

/-- Witness for C4 at a concrete world whose user lookup completes without
an id: the call fails with owner-not-found after the user lookup alone. -/
theorem C4_witness :
    createProjectRun wUserNull ⟨"T", none, "alice", "PRIVATE"⟩ =
      ([NetCall.getUserId "alice"],
        Response.text ("Error creating project: Owner " ++ sq ++ "alice" ++ sq ++
          " not found")) :=
  (C4_owner_resolution wUserNull ⟨"T", none, "alice", "PRIVATE"⟩).2.2.1 rfl

/-- Counterexample to C6 as stated: with fieldType omitted, a successful
fetch and no field with the supplied id, the formatted payload does fall to
the text branch, but the success text reports the field type as undefined,
not as TEXT. -/
theorem C6_counterexample :
    dispatch wNoF (.updateProjectItem ⟨some "P", some "I", some "F", some "hello", none⟩) =
      ([NetCall.getProjectDetails "P",
        NetCall.updateItemFieldMut "P" "I" "F" (FieldValue.text "hello")],
        Response.text ("Project item field updated successfully!\n\n" ++
          "Item ID: " ++ "IT1" ++ "\n" ++ "Field Type: " ++ "undefined" ++ "\n" ++
          "New Value: " ++ "hello")) ∧
    ("Project item field updated successfully!\n\n" ++
        "Item ID: " ++ "IT1" ++ "\n" ++ "Field Type: " ++ "undefined" ++ "\n" ++
        "New Value: " ++ "hello" ≠
      "Project item field updated successfully!\n\n" ++
        "Item ID: " ++ "IT1" ++ "\n" ++ "Field Type: " ++ "TEXT" ++ "\n" ++
        "New Value: " ++ "hello") := by
  exact ⟨rfl, by decide⟩

/-- C6 amended: with fieldType omitted, the handler fetches the field list
and takes `field?.dataType`.  When the fetch itself throws, the effective
type is TEXT and the success text reports TEXT.  When the fetch succeeds
but no field with the supplied id is present, the effective type variable
is undefined: the payload falls through the default branch to the same text
payload as TEXT, but the success text reports undefined. -/
theorem C6_auto_detect_fallback (w : World) (p : UpdateProjectItemArgs)
    (hft : p.fieldType = none) :
    (∀ m, w.node = .err m →
      detectFieldType w p = ([NetCall.getProjectDetails p.projectId], some "TEXT") ∧
      (∀ iid, w.updateItemRes = .ok iid →
        updateProjectItemRun w p =
          ([NetCall.getProjectDetails p.projectId,
            NetCall.updateItemFieldMut p.projectId p.itemId p.fieldId
              (FieldValue.text p.value)],
            Response.text ("Project item field updated successfully!\n\n" ++
              "Item ID: " ++ iid ++ "\n" ++ "Field Type: " ++ "TEXT" ++ "\n" ++
              "New Value: " ++ p.value)))) ∧
    (∀ pr, w.node = .ok (some pr) →
      (detailsView pr).fields.find? (fun g => g.id == p.fieldId) = none →
      detectFieldType w p = ([NetCall.getProjectDetails p.projectId], none) ∧
      (∀ iid, w.updateItemRes = .ok iid →
        updateProjectItemRun w p =
          ([NetCall.getProjectDetails p.projectId,
            NetCall.updateItemFieldMut p.projectId p.itemId p.fieldId
              (FieldValue.text p.value)],
            Response.text ("Project item field updated successfully!\n\n" ++
              "Item ID: " ++ iid ++ "\n" ++ "Field Type: " ++ "undefined" ++ "\n" ++
              "New Value: " ++ p.value)))) := by
  constructor
  · intro m hnode
    refine ⟨by simp [detectFieldType, hft, hnode], ?_⟩
    intro iid hres
    simp [updateProjectItemRun, detectFieldType, formatFieldValue, hft, hnode, hres,
      jsUndef, String.append_assoc]
  · intro pr hnode hfind
    have hff : findFieldById (some pr) p.fieldId = none := by
      simp [findFieldById, hfind]
    refine ⟨by simp [detectFieldType, hft, hnode, hff], ?_⟩
    intro iid hres
    simp [updateProjectItemRun, detectFieldType, formatFieldValue, hft, hnode, hff,
      hres, jsUndef, String.append_assoc]

/-- Counterexample to C3 as stated: the details query fetches only the
first 20 fields, so in a project whose only status-like field is the 21st,
a matching field exists in the field order of the project and yet the call
fails with the no-status-field error, listing only the first 20 field
names and issuing no update mutation. -/
theorem C3_counterexample :
    (∃ f ∈ prLateStatus.fields, statusLike f.name = true) ∧
    updateItemStatusRun wLateStatus ⟨"P", "I", "Todo"⟩ =
      ([NetCall.getProjectDetails "P"],
        Response.text ("Error updating status: No status field found. Available fields: " ++
          String.intercalate ", " ((List.range 20).map (fun i => "A" ++ toString i)))) := by
  refine ⟨⟨fSel, ?_, by decide⟩, by decide⟩
  simp [prLateStatus]

/-- C3 amended: update-item-status scans the fields returned by the details
query, which requests only the first 20 fields of the project, and picks
the first of them whose name contains status, state or column
case-insensitively: any update mutation it issues carries the id of that
field.  When none of the fetched fields matches, the call fails listing the
fetched field names and issues no update mutation. -/
theorem C3_status_scan_over_fetched_fields
    (w : World) (p : UpdateItemStatusArgs) (pr : RemoteProject)
    (hnode : w.node = .ok (some pr)) :
    (∀ l1 f l2, (detailsView pr).fields = l1 ++ f :: l2 →
      (∀ g ∈ l1, statusLike g.name = false) →
      statusLike f.name = true →
      ∀ call ∈ (updateItemStatusRun w p).1, call.isUpdateItemMut = true →
        ∃ v, call = NetCall.updateItemFieldMut p.projectId p.itemId f.id v) ∧
    ((∀ g ∈ (detailsView pr).fields, statusLike g.name = false) →
      updateItemStatusRun w p =
        ([NetCall.getProjectDetails p.projectId],
          Response.text ("Error updating status: No status field found. Available fields: " ++
            jsOrElse (String.intercalate ", "
              ((detailsView pr).fields.map (fun f => f.name))) "none"))) := by
  constructor
  · intro l1 f l2 hsplit hl1 hf call hcall hmut
    have hfind : (detailsView pr).fields.find? (fun g => statusLike g.name) = some f :=
      List.find?_eq_some.mpr ⟨hf, l1, l2, hsplit, fun a ha => by simp [hl1 a ha]⟩
    rcases hofind : f.options.bind (fun os =>
        os.find? (fun o => strLower o.name == strLower p.status)) with _ | o
    · simp [updateItemStatusRun, hnode, hfind, hofind] at hcall
      simp [hcall, NetCall.isUpdateItemMut] at hmut
    · cases hres : w.updateItemRes with
      | ok iid =>
          simp [updateItemStatusRun, hnode, hfind, hofind, hres] at hcall
          rcases hcall with rfl | rfl
          · simp [NetCall.isUpdateItemMut] at hmut
          · exact ⟨_, rfl⟩
      | err m =>
          simp [updateItemStatusRun, hnode, hfind, hofind, hres] at hcall
          rcases hcall with rfl | rfl
          · simp [NetCall.isUpdateItemMut] at hmut
          · exact ⟨_, rfl⟩
  · intro hnone
    have hfind : (detailsView pr).fields.find? (fun g => statusLike g.name) = none :=
      List.find?_eq_none.mpr (fun x hx => by simp [hnone x hx])
    simp [updateItemStatusRun, hnode, hfind]

/-- Witness for C3 at a concrete project with fields Alpha and Beta, none
of them status-like: the call fails listing both names. -/
theorem C3_witness :
    updateItemStatusRun wNoStatus ⟨"P", "I", "Todo"⟩ =
      ([NetCall.getProjectDetails "P"],
        Response.text ("Error updating status: No status field found. Available fields: " ++
          jsOrElse (String.intercalate ", "
            ((detailsView prNoStatus).fields.map (fun f => f.name))) "none")) :=
  (C3_status_scan_over_fetched_fields wNoStatus ⟨"P", "I", "Todo"⟩ prNoStatus rfl).2
    (by decide)

/-- Witness for C6 at a concrete world whose fetch throws: the reported
field type is TEXT. -/
theorem C6_witness :
    updateProjectItemRun { wBase with node := .err "down" }
        ⟨"P", "I", "F", "hello", none⟩ =
      ([NetCall.getProjectDetails "P",
        NetCall.updateItemFieldMut "P" "I" "F" (FieldValue.text "hello")],
        Response.text ("Project item field updated successfully!\n\n" ++
          "Item ID: " ++ "IT1" ++ "\n" ++ "Field Type: " ++ "TEXT" ++ "\n" ++
          "New Value: " ++ "hello")) :=
  ((C6_auto_detect_fallback { wBase with node := .err "down" }
      ⟨"P", "I", "F", "hello", none⟩ rfl).1 "down" rfl).2 "IT1" rfl

/-- Counterexample to C1 as stated: list-projects never validates its
arguments.  With the required owner missing, the call does not raise the
invalid-parameters fault and a network call is issued, the user-projects
query with an undefined login. -/
theorem C1_counterexample :
    (dispatch wBase (.listProjects ⟨none, none⟩)).1 = [NetCall.getUserProjects none] ∧
    (dispatch wBase (.listProjects ⟨none, none⟩)).2.isInvalidParams = false := by
  exact ⟨rfl, rfl⟩

/-- C1 amended: every tool except list-projects rejects an argument object
with a missing required field or an out-of-range enum value by returning
the invalid-parameters fault, whose message joins one zod message per
violated field (all of them, not only the first), before any network call;
list-projects performs no validation and always issues exactly one query.
The per-schema conjuncts certify that the issue list covers exactly the
violated fields of each schema. -/
theorem C1_validation_before_network :
    (∀ (w : World) (a : ListProjectsRaw),
      (dispatch w (.listProjects a)).1.length = 1 ∧
      (dispatch w (.listProjects a)).2.isInvalidParams = false) ∧
    (∀ (w : World) (c : ToolCall), validationIssues c ≠ [] →
      dispatch w c = ([], .invalidParams (invalidArgsMsg (validationIssues c)))) ∧
    (∀ a : GetProjectRaw,
      ("projectId" ∈ (getProjectIssues a).map ZodIssue.path ↔ a.projectId = none)) ∧
    (∀ a : CreateProjectRaw,
      ("title" ∈ (createProjectIssues a).map ZodIssue.path ↔ a.title = none) ∧
      ("owner" ∈ (createProjectIssues a).map ZodIssue.path ↔ a.owner = none) ∧
      ("visibility" ∈ (createProjectIssues a).map ZodIssue.path ↔
        ∃ v, a.visibility = some v ∧ v ∉ visibilityEnum)) ∧
    (∀ a : UpdateProjectRaw,
      ("projectId" ∈ (updateProjectIssues a).map ZodIssue.path ↔ a.projectId = none) ∧
      ("visibility" ∈ (updateProjectIssues a).map ZodIssue.path ↔
        ∃ v, a.visibility = some v ∧ v ∉ visibilityEnum)) ∧
    (∀ a : CreateIssueRaw,
      ("owner" ∈ (createIssueIssues a).map ZodIssue.path ↔ a.owner = none) ∧
      ("repo" ∈ (createIssueIssues a).map ZodIssue.path ↔ a.repo = none) ∧
      ("title" ∈ (createIssueIssues a).map ZodIssue.path ↔ a.title = none)) ∧
    (∀ a : AddItemRaw,
      ("projectId" ∈ (addItemIssues a).map ZodIssue.path ↔ a.projectId = none) ∧
      ("contentId" ∈ (addItemIssues a).map ZodIssue.path ↔ a.contentId = none)) ∧
    (∀ a : UpdateProjectItemRaw,
      ("projectId" ∈ (updateProjectItemIssues a).map ZodIssue.path ↔ a.projectId = none) ∧
      ("itemId" ∈ (updateProjectItemIssues a).map ZodIssue.path ↔ a.itemId = none) ∧
      ("fieldId" ∈ (updateProjectItemIssues a).map ZodIssue.path ↔ a.fieldId = none) ∧
      ("value" ∈ (updateProjectItemIssues a).map ZodIssue.path ↔ a.value = none) ∧
      ("fieldType" ∈ (updateProjectItemIssues a).map ZodIssue.path ↔
        ∃ v, a.fieldType = some v ∧ v ∉ fieldTypeEnum)) ∧
    (∀ a : CreateProjectFieldRaw,
      ("projectId" ∈ (createProjectFieldIssues a).map ZodIssue.path ↔ a.projectId = none) ∧
      ("name" ∈ (createProjectFieldIssues a).map ZodIssue.path ↔ a.name = none) ∧
      ("dataType" ∈ (createProjectFieldIssues a).map ZodIssue.path ↔
        (a.dataType = none ∨ ∃ v, a.dataType = some v ∧ v ∉ fieldTypeEnum))) ∧
    (∀ a : UpdateItemStatusRaw,
      ("projectId" ∈ (updateItemStatusIssues a).map ZodIssue.path ↔ a.projectId = none) ∧
      ("itemId" ∈ (updateItemStatusIssues a).map ZodIssue.path ↔ a.itemId = none) ∧
      ("status" ∈ (updateItemStatusIssues a).map ZodIssue.path ↔ a.status = none)) ∧
    (∀ a : GetProjectFieldsRaw,
      ("projectId" ∈ (getProjectFieldsIssues a).map ZodIssue.path ↔ a.projectId = none)) ∧
    (∀ a : GetProjectItemsRaw,
      ("projectId" ∈ (getProjectItemsIssues a).map ZodIssue.path ↔ a.projectId = none)) := by
  refine ⟨?_, ?_, ?_, ?_, ?_, ?_, ?_, ?_, ?_, ?_, ?_, ?_⟩
  · intro w a
    cases hty : (a.type.getD "user" == "organization") with
    | true =>
        cases h : w.orgProjects <;>
          simp [dispatch, listProjectsRun, hty, h, Response.isInvalidParams]
    | false =>
        cases h : w.userProjects <;>
          simp [dispatch, listProjectsRun, hty, h, Response.isInvalidParams]
  · intro w c h
    cases c with
    | listProjects a => simp [validationIssues] at h
    | unknown n => simp [validationIssues] at h
    | getProject a =>
        rcases hi : getProjectIssues a with _ | ⟨i, is⟩
        · simp [validationIssues, hi] at h
        · simp [dispatch, parseGetProject, validationIssues, hi]
    | createProject a =>
        rcases hi : createProjectIssues a with _ | ⟨i, is⟩
        · simp [validationIssues, hi] at h
        · simp [dispatch, parseCreateProject, validationIssues, hi]
    | updateProject a =>
        rcases hi : updateProjectIssues a with _ | ⟨i, is⟩
        · simp [validationIssues, hi] at h
        · simp [dispatch, parseUpdateProject, validationIssues, hi]
    | createIssue a =>
        rcases hi : createIssueIssues a with _ | ⟨i, is⟩
        · simp [validationIssues, hi] at h
        · simp [dispatch, parseCreateIssue, validationIssues, hi]
    | addItemToProject a =>
        rcases hi : addItemIssues a with _ | ⟨i, is⟩
        · simp [validationIssues, hi] at h
        · simp [dispatch, parseAddItem, validationIssues, hi]
    | updateProjectItem a =>
        rcases hi : updateProjectItemIssues a with _ | ⟨i, is⟩
        · simp [validationIssues, hi] at h
        · simp [dispatch, parseUpdateProjectItem, validationIssues, hi]
    | createProjectField a =>
        rcases hi : createProjectFieldIssues a with _ | ⟨i, is⟩
        · simp [validationIssues, hi] at h
        · simp [dispatch, parseCreateProjectField, validationIssues, hi]
    | updateItemStatus a =>
        rcases hi : updateItemStatusIssues a with _ | ⟨i, is⟩
        · simp [validationIssues, hi] at h
        · simp [dispatch, parseUpdateItemStatus, validationIssues, hi]
    | getProjectFields a =>
        rcases hi : getProjectFieldsIssues a with _ | ⟨i, is⟩
        · simp [validationIssues, hi] at h
        · simp [dispatch, parseGetProjectFields, validationIssues, hi]
    | getProjectItems a =>
        rcases hi : getProjectItemsIssues a with _ | ⟨i, is⟩
        · simp [validationIssues, hi] at h
        · simp [dispatch, parseGetProjectItems, validationIssues, hi]
  · intro a
    rcases hp : a.projectId with _ | v <;> simp [getProjectIssues, reqIssue, hp]
  · intro a
    refine ⟨?_, ?_, ?_⟩ <;>
      (rcases ht : a.title with _ | _ <;> rcases ho : a.owner with _ | _ <;>
        rcases hv : a.visibility with _ | v <;>
        simp [createProjectIssues, reqIssue, enumIssue, ht, ho, hv]) <;>
      by_cases hin : v ∈ visibilityEnum <;> simp [hin]
  · intro a
    refine ⟨?_, ?_⟩ <;>
      (rcases hp : a.projectId with _ | _ <;> rcases hv : a.visibility with _ | v <;>
        simp [updateProjectIssues, reqIssue, enumIssue, hp, hv]) <;>
      by_cases hin : v ∈ visibilityEnum <;> simp [hin]
  · intro a
    refine ⟨?_, ?_, ?_⟩ <;>
      (rcases ho : a.owner with _ | _ <;> rcases hr : a.repo with _ | _ <;>
        rcases ht : a.title with _ | _ <;>
        simp [createIssueIssues, reqIssue, ho, hr, ht])
  · intro a
    refine ⟨?_, ?_⟩ <;>
      (rcases hp : a.projectId with _ | _ <;> rcases hc : a.contentId with _ | _ <;>
        simp [addItemIssues, reqIssue, hp, hc])
  · intro a
    refine ⟨?_, ?_, ?_, ?_, ?_⟩ <;>
      (rcases hp : a.projectId with _ | _ <;> rcases hi : a.itemId with _ | _ <;>
        rcases hf : a.fieldId with _ | _ <;> rcases hval : a.value with _ | _ <;>
        rcases hv : a.fieldType with _ | v <;>
        simp [updateProjectItemIssues, reqIssue, enumIssue, hp, hi, hf, hval, hv]) <;>
      by_cases hin : v ∈ fieldTypeEnum <;> simp [hin]
  · intro a
    refine ⟨?_, ?_, ?_⟩ <;>
      (rcases hp : a.projectId with _ | _ <;> rcases hn : a.name with _ | _ <;>
        rcases hv : a.dataType with _ | v <;>
        simp [createProjectFieldIssues, reqIssue, reqEnumIssue, hp, hn, hv]) <;>
      by_cases hin : v ∈ fieldTypeEnum <;> simp [hin]
  · intro a
    refine ⟨?_, ?_, ?_⟩ <;>
      (rcases hp : a.projectId with _ | _ <;> rcases hi : a.itemId with _ | _ <;>
        rcases hs : a.status with _ | _ <;>
        simp [updateItemStatusIssues, reqIssue, hp, hi, hs])
  · intro a
    rcases hp : a.projectId with _ | v <;> simp [getProjectFieldsIssues, reqIssue, hp]
  · intro a
    rcases hp : a.projectId with _ | v <;> simp [getProjectItemsIssues, reqIssue, hp]

/-- Witness for C1: a create-project call missing title and owner and with
an out-of-range visibility is rejected with the joined issue messages and
an empty network trace. -/
theorem C1_witness :
    dispatch wBase (.createProject ⟨none, none, none, some "BOGUS"⟩) =
      ([], .invalidParams (invalidArgsMsg
        (validationIssues (.createProject ⟨none, none, none, some "BOGUS"⟩)))) :=
  C1_validation_before_network.2.1 wBase
    (.createProject ⟨none, none, none, some "BOGUS"⟩) (by decide)

end GHP
